import Mathlib

/-!
Shallow embedding of `virtinst/storage.py` (StoragePool / StorageVolume
building and validation logic) and proofs about its behaviour.

Modelling conventions:
* XML string properties (`XMLProperty`) are `Option String`; `none` is an
  unset property.  Python truthiness of such a value (`if not self.x`) is
  `strTruthy`.
* Integer XML properties hold libvirt byte sizes, which are nonnegative;
  they are modelled as `Nat` (Python `//` on nonnegative ints is `Nat` division).
* External collaborators (the libvirt connection, the XML framework's
  generic-name validator, `hasattr` reflection) are oracles: explicit
  function/record parameters whose behaviour is unconstrained.
* Functions that can `raise` return `Except String α` or pair their result
  with an `Option String` error; mutation is explicit state passing.
-/

namespace Virtinst

/-- Python truthiness of an optional string: `None` and `""` are falsy. -/
def strTruthy : Option String → Bool
  | none => false
  | some s => s ≠ ""

/-- Membership test `x in l` where `x` is a possibly-`None` Python string. -/
def optIn (x : Option String) (l : List String) : Bool :=
  match x with
  | none => false
  | some s => l.contains s

/-- Python `s.startswith(pre)`, on the character data (kernel-reducible,
unlike `String.startsWith`). -/
def strStartsWith (s pre : String) : Bool := pre.data.isPrefixOf s.data

/-- Python `s[n:]` (slicing counts characters, as `List.drop` does). -/
def strDrop (s : String) (n : Nat) : String := ⟨s.data.drop n⟩

/-- Python `s.split(sep, 1)[0]`: the longest prefix before `sep`. -/
def strTakeWhile (p : Char → Bool) (s : String) : String := ⟨s.data.takeWhile p⟩

/-- Python `s.endswith(suf)`, on the character data. -/
def strEndsWith (s suf : String) : Bool := suf.data.isSuffixOf s.data

/-- `os.path.join(a, b)` for the cases arising here (no drive letters):
an absolute second component replaces the first. -/
def pathJoin (a b : String) : String :=
  if strStartsWith b "/" then b
  else if a = "" ∨ strEndsWith a "/" then a ++ b
  else a ++ "/" ++ b

/-- module constant `_DEFAULT_DEV_TARGET`. -/
def DEFAULT_DEV_TARGET : String := "/dev"
/-- module constant `_DEFAULT_LVM_TARGET_BASE`. -/
def DEFAULT_LVM_TARGET_BASE : String := "/dev/"
/-- module constant `_DEFAULT_SCSI_TARGET`. -/
def DEFAULT_SCSI_TARGET : String := "/dev/disk/by-path"
/-- module constant `_DEFAULT_MPATH_TARGET`. -/
def DEFAULT_MPATH_TARGET : String := "/dev/mapper"

/-- A `<host>` child element: name attribute and integer port. -/
structure Host where
  name : Option String
  port : Option Int
deriving Repr, DecidableEq

/-- Oracle model of the libvirt connection object (`self.conn`), restricted
to the queries the embedded code performs. -/
structure Conn where
  /-- `conn.is_session_uri()` -/
  is_session_uri : Bool
  /-- the expansion of `~` used by `os.path.expanduser` -/
  home : String
  /-- names for which `conn.storagePoolLookupByName` succeeds -/
  poolNames : List String
  /-- `XMLBuilder.validate_generic_name` (external XML framework code):
  `some msg` when it raises, `none` when the name passes -/
  genericNameErr : Option String → Option String
  /-- `conn.is_really_test()` -/
  is_really_test : Bool
  /-- `conn.support.conn_qcow2_lazy_refcounts()` -/
  conn_qcow2_lazy_refcounts : Bool
  /-- `conn.support.pool_metadata_prealloc(pool)` -/
  pool_metadata_prealloc : Bool

/-- `_preferred_default_pool_path(conn)`. -/
def preferred_default_pool_path (c : Conn) : String :=
  if c.is_session_uri then c.home ++ "/.local/share/libvirt/images"
  else "/var/lib/libvirt/images"

/-- State of a `StoragePool` XML object: its XML properties plus the
`_propstore` bit consulted by `default_source_name`. -/
structure StoragePool where
  name : Option String := none
  type : Option String := none
  uuid : Option String := none
  capacity : Option Nat := none
  allocation : Option Nat := none
  available : Option Nat := none
  format : Option String := none
  iqn : Option String := none
  source_name : Option String := none
  auth_type : Option String := none
  target_path : Option String := none
  /-- `"target_path" in self._propstore`: the property has been explicitly
  assigned (the XML framework records explicit sets) -/
  target_path_explicit : Bool := false
  hosts : List Host := []
  source_dir : Option String := none
  source_adapter : Option String := none
  source_device : Option String := none
deriving Repr, DecidableEq

namespace StoragePool

/-- The `users` dict in `supports_property`: per property name, the pool
types exposing it.  `Option` models `users.get(propname)`. -/
def users (propname : String) : Option (List String) :=
  if propname = "source_path" then
    some ["fs", "netfs", "logical", "disk", "iscsi", "scsi", "gluster"]
  else if propname = "source_name" then
    some ["logical", "gluster", "rbd", "sheepdog", "zfs"]
  else if propname = "hosts" then
    some ["netfs", "iscsi", "gluster", "rbd", "sheepdog"]
  else if propname = "format" then
    some ["fs", "netfs", "disk"]
  else if propname = "iqn" then
    some ["iscsi"]
  else if propname = "target_path" then
    some ["dir", "fs", "netfs", "logical", "disk", "iscsi", "scsi", "mpath"]
  else none

/-- `StoragePool.supports_property(self, propname)`.  `ha` is the oracle for
Python `hasattr(self, propname)` on the fallback path. -/
def supports_property (p : StoragePool) (ha : String → Bool) (propname : String) : Bool :=
  match users propname with
  | some l => optIn p.type l
  | none => ha propname

/-- `StoragePool.default_target_path(self)`.  `Except.ok none` is the early
`return None`; `Except.error` is the final `raise RuntimeError`. -/
def default_target_path (p : StoragePool) (ha : String → Bool) (c : Conn) :
    Except String (Option String) :=
  if ¬ p.supports_property ha "target_path" then .ok none
  else if p.type = some "dir" ∨ p.type = some "netfs" ∨ p.type = some "fs" then
    .ok (some (pathJoin (preferred_default_pool_path c) (p.name.getD "")))
  else if p.type = some "logical" then
    .ok (some (DEFAULT_LVM_TARGET_BASE ++
      (if strTruthy p.source_name then p.source_name.getD "" else p.name.getD "")))
  else if p.type = some "disk" then .ok (some DEFAULT_DEV_TARGET)
  else if p.type = some "iscsi" ∨ p.type = some "scsi" then .ok (some DEFAULT_SCSI_TARGET)
  else if p.type = some "mpath" then .ok (some DEFAULT_MPATH_TARGET)
  else .error ("No default target_path for type=" ++ (p.type.getD "None"))

/-- `StoragePool._get_source` / the `source_path` property read, dispatching
on `_type_to_source_prop`. -/
def source_path (p : StoragePool) : Option String :=
  if p.type = some "netfs" ∨ p.type = some "gluster" then p.source_dir
  else if p.type = some "scsi" then p.source_adapter
  else p.source_device

/-- `StoragePool._set_source` / the `source_path` property write. -/
def set_source_path (p : StoragePool) (val : Option String) : StoragePool :=
  if p.type = some "netfs" ∨ p.type = some "gluster" then { p with source_dir := val }
  else if p.type = some "scsi" then { p with source_adapter := val }
  else { p with source_device := val }

/-- `StoragePool.default_source_name(self)`. -/
def default_source_name (p : StoragePool) (ha : String → Bool) : Option String :=
  if ¬ p.supports_property ha "source_name" then none
  else if p.type = some "netfs" then p.name
  else if p.type = some "rbd" then some "rbd"
  else if p.type = some "gluster" then some "gv0"
  else if p.target_path_explicit ∧ strTruthy p.target_path ∧
      strStartsWith (p.target_path.getD "") DEFAULT_LVM_TARGET_BASE then
    -- parse the target path for an expected VG location: vg.split("/", 1)[0]
    some (strTakeWhile (· ≠ '/')
      (strDrop (p.target_path.getD "") DEFAULT_LVM_TARGET_BASE.length))
  else none

/-- `StoragePool.validate_name(conn, name)`: generic XML-framework name check
(oracle), then uniqueness against existing pool names.  `some msg` models a
raised exception. -/
def validate_name (c : Conn) (name : Option String) : Option String :=
  match c.genericNameErr name with
  | some msg => some msg
  | none =>
    if c.poolNames.contains (name.getD "") then
      some ("Name \x27" ++ name.getD "" ++ "\x27 already in use by another pool.")
    else none

/-- The defaulting prefix of `StoragePool.validate`: the three
`if not self.x: self.x = default` assignments, in source order.  Assigning
`target_path` records it in `_propstore`. -/
def apply_defaults (p : StoragePool) (ha : String → Bool) (c : Conn) :
    Except String StoragePool := do
  let p ←
    if ¬ strTruthy p.target_path then do
      let d ← p.default_target_path ha c
      pure { p with target_path := d, target_path_explicit := true }
    else pure p
  let p :=
    if ¬ strTruthy p.source_name then { p with source_name := p.default_source_name ha }
    else p
  let p :=
    if ¬ strTruthy p.format ∧ p.supports_property ha "format" then
      { p with format := some "auto" }
    else p
  pure p

/-- `StoragePool.validate(self)`: returns the pool state after the call and
`some msg` when the call raises (the state then reflects the mutations made
before the raise). -/
def validate (p : StoragePool) (ha : String → Bool) (c : Conn) :
    StoragePool × Option String :=
  match validate_name c p.name with
  | some msg => (p, some msg)
  | none =>
    match p.apply_defaults ha c with
    | .error e => (p, some e)
    | .ok p1 =>
      if p1.supports_property ha "hosts" ∧ p1.hosts = [] then
        (p1, some "Hostname is required")
      else if p1.supports_property ha "source_path" ∧ p1.type ≠ some "logical" ∧
          ¬ strTruthy p1.source_path then
        (p1, some "Source path is required")
      else if p1.type = some "disk" ∧ p1.format = some "auto" then
        -- no explicit "auto" type for disk pools: leave the format out
        ({ p1 with format := none }, none)
      else (p1, none)

/-- Oracle outcomes of the libvirt calls `StoragePool.install` performs on
the connection and the freshly defined pool handle. -/
structure PoolOps where
  /-- `conn.storagePoolDefineXML(xml, 0)` -/
  defineResult : Except String Unit
  /-- `pool.build(VIR_STORAGE_POOL_BUILD_NEW)` -/
  buildResult : Except String Unit
  /-- `pool.create(0)` -/
  createResult : Except String Unit
  /-- `pool.setAutostart(True)` -/
  autostartResult : Except String Unit
  /-- `pool.undefine()` -/
  undefineResult : Except String Unit

/-- Observable effects of one `StoragePool.install` call. -/
structure InstallTrace where
  build_attempted : Bool
  create_attempted : Bool
  autostart_attempted : Bool
  undefine_attempted : Bool
  /-- `conn.cache_new_pool(pool)` was called -/
  cached : Bool
  /-- `.ok ()` when the pool handle is returned, `.error msg` when raised -/
  result : Except String Unit
deriving Repr

/-- `StoragePool.install(self, meter, create, build, autostart)`. -/
def install (p : StoragePool) (ops : PoolOps)
    (create build autostart : Bool) : InstallTrace :=
  if p.type = some "logical" ∧ build ∧ ¬ strTruthy p.source_path then
    ⟨false, false, false, false, false,
      .error "Must explicitly specify source path if building pool"⟩
  else if p.type = some "disk" ∧ build ∧ p.format = some "auto" then
    ⟨false, false, false, false, false,
      .error "Must explicitly specify disk format if formatting disk device."⟩
  else
    match ops.defineResult with
    | .error e =>
      ⟨false, false, false, false, false,
        .error ("Could not define storage pool: " ++ e)⟩
    | .ok _ =>
      let (buildAtt, errmsg) :=
        if build then
          (true, match ops.buildResult with
            | .ok _ => none
            | .error e => some ("Could not build storage pool: " ++ e))
        else (false, (none : Option String))
      let (createAtt, errmsg) :=
        if create ∧ errmsg = none then
          (true, match ops.createResult with
            | .ok _ => none
            | .error e => some ("Could not start storage pool: " ++ e))
        else (false, errmsg)
      let (autostartAtt, errmsg) :=
        if autostart ∧ errmsg = none then
          (true, match ops.autostartResult with
            | .ok _ => none
            | .error e => some ("Could not set pool autostart flag: " ++ e))
        else (false, errmsg)
      match errmsg with
      | some m =>
        -- try to clean up the leftover pool; an undefine failure is only logged
        ⟨buildAtt, createAtt, autostartAtt, true, false, .error m⟩
      | none =>
        ⟨buildAtt, createAtt, autostartAtt, false, true, .ok ()⟩

/-- A `<source>` fragment of the enumeration XML, parsed (by the external
XML framework) into the pool fields `pool_list_from_sources` copies over. -/
structure EnumConn where
  /-- `conn.findStoragePoolSources(pool_type, source_xml, 0)`: either the
  result XML or a raised libvirt error -/
  findStoragePoolSources : String → String → Except String String
  /-- `conn.support.is_error_nosupport(e)` -/
  is_error_nosupport : String → Bool
  /-- external XML parsing: the `StoragePool(conn, parsexml=...)` objects
  built from each `<source>` fragment of the returned XML -/
  parse_sources : String → List StoragePool

/-- The `source_xml` stub built at the top of `pool_list_from_sources`. -/
def enum_source_xml (host : Option String) : String :=
  match host with
  | some h => "<source><host name=\x27" ++ h ++ "\x27/></source>"
  | none => "<source/>"

/-- `StoragePool.pool_list_from_sources(conn, pool_type, host)`. -/
def pool_list_from_sources (c : EnumConn) (pool_type : String)
    (host : Option String) : Except String (List StoragePool) :=
  match c.findStoragePoolSources pool_type (enum_source_xml host) with
  | .error e => if c.is_error_nosupport e then .ok [] else .error e
  | .ok xml =>
    .ok ((c.parse_sources xml).map fun parsed =>
      let parseobj := { parsed with type := some pool_type }
      let obj : StoragePool := { type := some pool_type }
      let obj := obj.set_source_path parseobj.source_path
      let obj := { obj with
        hosts := parseobj.hosts
        source_name := parseobj.source_name
        format := parseobj.format }
      obj)

/-- `StoragePool.get_disk_type(self)` (volume type constants below). -/
def get_disk_type (p : StoragePool) : Nat :=
  if optIn p.type ["disk", "logical", "scsi", "mpath", "zfs"] then 1
  else if optIn p.type ["gluster", "rbd", "iscsi", "sheepdog"] then 3
  else 0

end StoragePool

/-- libvirt volume type constants. -/
def VIR_STORAGE_VOL_FILE : Nat := 0
/-- libvirt volume type constant for block volumes. -/
def VIR_STORAGE_VOL_BLOCK : Nat := 1
/-- libvirt volume type constant for network volumes. -/
def VIR_STORAGE_VOL_NETWORK : Nat := 3
/-- libvirt flag `VIR_STORAGE_VOL_CREATE_PREALLOC_METADATA`. -/
def VIR_STORAGE_VOL_CREATE_PREALLOC_METADATA : Nat := 1
/-- libvirt flag `VIR_STORAGE_VOL_CREATE_REFLINK`. -/
def VIR_STORAGE_VOL_CREATE_REFLINK : Nat := 2

/-- The live pool handle a volume is associated with: the data returned by
`pool.info()` (`[state, capacity, allocation, available]`) and the volume
names for which `pool.storageVolLookupByName` succeeds. -/
structure PoolHandle where
  state : Nat
  info_capacity : Nat
  info_allocation : Nat
  avail : Nat
  volNames : List String
deriving Repr, DecidableEq

/-- State of a `StorageVolume` XML object plus its non-XML attributes. -/
structure StorageVolume where
  name : Option String := none
  type : Option String := none
  key : Option String := none
  capacity : Nat := 0
  allocation : Nat := 0
  format : Option String := none
  target_path : Option String := none
  backing_store : Option String := none
  backing_format : Option String := none
  /-- `none` models `_prop_is_unset("lazy_refcounts")` -/
  lazy_refcounts : Option Bool := none
  /-- `self._pool` (set together with `_pool_xml` by the pool setter) -/
  pool : Option PoolHandle := none
  /-- `self._pool_xml`: parsed XML snapshot of the associated pool -/
  pool_xml : StoragePool := {}
  reflink : Bool := false
deriving Repr, DecidableEq

namespace StorageVolume

/-- `StorageVolume._get_vol_type` (the `file_type` property). -/
def file_type (v : StorageVolume) : Nat :=
  match v.type with
  | some "file" => VIR_STORAGE_VOL_FILE
  | some "block" => VIR_STORAGE_VOL_BLOCK
  | some "dir" => 2
  | some "network" => VIR_STORAGE_VOL_NETWORK
  | _ => v.pool_xml.get_disk_type

/-- `StorageVolume.is_size_conflict(self)`. -/
def is_size_conflict (v : StorageVolume) : Bool × String :=
  match v.pool with
  | none => (false, "")
  | some ph =>
    if v.allocation > ph.avail then
      (true, "There is not enough free space on the storage pool to create the volume. (" ++
        toString (v.allocation / (1024 * 1024)) ++ " M requested allocation > " ++
        toString (ph.avail / (1024 * 1024)) ++ " M available)")
    else if v.capacity > ph.avail then
      (false, "The requested volume capacity will exceed the available pool space when the volume is fully allocated. (" ++
        toString (v.capacity / (1024 * 1024)) ++ " M requested capacity > " ++
        toString (ph.avail / (1024 * 1024)) ++ " M available)")
    else (false, "")

/-- `StorageVolume.validate_name(pool, name)` against the associated pool
handle; `some msg` models a raised exception (including the
`AttributeError` Python would raise with no pool assigned). -/
def validate_name (c : Conn) (pool : Option PoolHandle) (name : Option String) :
    Option String :=
  match c.genericNameErr name with
  | some msg => some msg
  | none =>
    match pool with
    | none => some "AttributeError: NoneType has no attribute storageVolLookupByName"
    | some ph =>
      if ph.volNames.contains (name.getD "") then
        some ("Name \x27" ++ name.getD "" ++ "\x27 already in use by another volume.")
      else none

/-- The format / lazy_refcounts defaulting steps at the top of
`StorageVolume.validate`. -/
def validate_set_defaults (v : StorageVolume) (c : Conn) : StorageVolume :=
  let v :=
    if ¬ strTruthy v.format ∧ v.file_type = VIR_STORAGE_VOL_FILE then
      { v with format := some "raw" }
    else v
  if v.lazy_refcounts = none ∧ v.format = some "qcow2" then
    { v with lazy_refcounts := some c.conn_qcow2_lazy_refcounts }
  else v

/-- `StorageVolume.validate(self)`: final state, warnings logged
(`log.warning`), and `some msg` when the call raises. -/
def validate (v : StorageVolume) (c : Conn) :
    StorageVolume × List String × Option String :=
  match validate_name c v.pool v.name with
  | some msg => (v, [], some msg)
  | none =>
    let v := validate_set_defaults v c
    let (v, warns) :=
      if v.pool_xml.type = some "logical" ∧ v.allocation ≠ v.capacity then
        ({ v with allocation := v.capacity },
          ["Sparse logical volumes are not supported, setting allocation equal to capacity"])
      else (v, [])
    let (isfatal, errmsg) := v.is_size_conflict
    if isfatal then (v, warns, some errmsg)
    else if errmsg ≠ "" then (v, warns ++ [errmsg], none)
    else (v, warns, none)

/-- The flag computation of `StorageVolume.install(self)`: the
`(cloneflags, createflags)` pair assembled before the create/clone call. -/
def install_flags (v : StorageVolume) (c : Conn) : Nat × Nat :=
  let cloneflags := 0
  let createflags := 0
  let (cloneflags, createflags) :=
    if v.format = some "qcow2" ∧ ¬ strTruthy v.backing_store ∧
        ¬ c.is_really_test ∧ c.pool_metadata_prealloc then
      let createflags := createflags ||| VIR_STORAGE_VOL_CREATE_PREALLOC_METADATA
      -- for cloning, this flag makes libvirt+qemu-img preallocate the image
      let cloneflags :=
        if v.capacity = v.allocation then
          cloneflags ||| VIR_STORAGE_VOL_CREATE_PREALLOC_METADATA
        else cloneflags
      (cloneflags, createflags)
    else (cloneflags, createflags)
  let cloneflags :=
    if v.reflink then cloneflags ||| VIR_STORAGE_VOL_CREATE_REFLINK else cloneflags
  (cloneflags, createflags)

end StorageVolume

/-! ## Theorems -/

namespace StoragePool

/-- C2: for every pool type and each of the six known property names,
`supports_property` returns `True` exactly when the pool's type is in the
fixed type→capability table for that name; any other property name falls
back to the `hasattr` reflection oracle. -/
theorem supports_property_table_spec (p : StoragePool) (ha : String → Bool)
    (t : String) (ht : p.type = some t) :
    (p.supports_property ha "source_path" = true ↔
      (t = "fs" ∨ t = "netfs" ∨ t = "logical" ∨ t = "disk" ∨ t = "iscsi" ∨
        t = "scsi" ∨ t = "gluster")) ∧
    (p.supports_property ha "source_name" = true ↔
      (t = "logical" ∨ t = "gluster" ∨ t = "rbd" ∨ t = "sheepdog" ∨ t = "zfs")) ∧
    (p.supports_property ha "hosts" = true ↔
      (t = "netfs" ∨ t = "iscsi" ∨ t = "gluster" ∨ t = "rbd" ∨ t = "sheepdog")) ∧
    (p.supports_property ha "format" = true ↔ (t = "fs" ∨ t = "netfs" ∨ t = "disk")) ∧
    (p.supports_property ha "iqn" = true ↔ t = "iscsi") ∧
    (p.supports_property ha "target_path" = true ↔
      (t = "dir" ∨ t = "fs" ∨ t = "netfs" ∨ t = "logical" ∨ t = "disk" ∨
        t = "iscsi" ∨ t = "scsi" ∨ t = "mpath")) ∧
    (∀ propname, propname ≠ "source_path" → propname ≠ "source_name" →
      propname ≠ "hosts" → propname ≠ "format" → propname ≠ "iqn" →
      propname ≠ "target_path" →
      p.supports_property ha propname = ha propname) := by
  refine ⟨?_, ?_, ?_, ?_, ?_, ?_, ?_⟩
  · simp [supports_property, users, optIn, ht, List.contains]
  · simp [supports_property, users, optIn, ht, List.contains]
  · simp [supports_property, users, optIn, ht, List.contains]
  · simp [supports_property, users, optIn, ht, List.contains]
  · simp [supports_property, users, optIn, ht, List.contains]
  · simp [supports_property, users, optIn, ht, List.contains]
  · intro propname h1 h2 h3 h4 h5 h6
    simp [supports_property, users, h1, h2, h3, h4, h5, h6]

/-- Witness for C2: evaluated at a concrete fs-type pool. -/
theorem supports_property_table_spec_witness :
    ({ type := some "fs" } : StoragePool).supports_property (fun _ => false)
      "format" = true :=
  ((supports_property_table_spec { type := some "fs" } (fun _ => false) "fs"
    rfl).2.2.2.1).mpr (Or.inl rfl)

/-- C1 counterexample: the claim says `default_target_path` raises for a
pool type lacking a mapped default, such as gluster; on a concrete gluster
pool the code instead returns `None` without raising, because the
`supports_property("target_path")` guard returns early. -/
theorem default_target_path_gluster_returns_none :
    ({ type := some "gluster", name := some "pool" } : StoragePool).default_target_path
      (fun _ => true)
      { is_session_uri := false, home := "/root", poolNames := [],
        genericNameErr := fun _ => none, is_really_test := false,
        conn_qcow2_lazy_refcounts := false, pool_metadata_prealloc := false } =
      .ok none := by
  rfl

/-- C1 (amended): `default_target_path` returns the documented path formula
for the eight mapped types (dir/fs/netfs: default pool root joined with the
pool name; logical: LVM base prefix plus source_name-or-name; disk: /dev;
iscsi/scsi: /dev/disk/by-path; mpath: /dev/mapper); for any pool type
lacking a mapped default (e.g. gluster, rbd, sheepdog, zfs) it returns
`None` without raising — the `raise` at the end is unreachable. -/
theorem default_target_path_spec (p : StoragePool) (ha : String → Bool) (c : Conn) :
    ((p.type = some "dir" ∨ p.type = some "fs" ∨ p.type = some "netfs") →
      p.default_target_path ha c =
        .ok (some (pathJoin (preferred_default_pool_path c) (p.name.getD "")))) ∧
    (p.type = some "logical" →
      p.default_target_path ha c =
        .ok (some ("/dev/" ++
          (if strTruthy p.source_name then p.source_name.getD "" else p.name.getD "")))) ∧
    (p.type = some "disk" → p.default_target_path ha c = .ok (some "/dev")) ∧
    ((p.type = some "iscsi" ∨ p.type = some "scsi") →
      p.default_target_path ha c = .ok (some "/dev/disk/by-path")) ∧
    (p.type = some "mpath" → p.default_target_path ha c = .ok (some "/dev/mapper")) ∧
    (∀ t, p.type = some t →
      t ≠ "dir" → t ≠ "fs" → t ≠ "netfs" → t ≠ "logical" → t ≠ "disk" →
      t ≠ "iscsi" → t ≠ "scsi" → t ≠ "mpath" →
      p.default_target_path ha c = .ok none) := by
  refine ⟨?_, ?_, ?_, ?_, ?_, ?_⟩
  · rintro (ht | ht | ht) <;>
      simp [default_target_path, supports_property, users, optIn, ht,
        DEFAULT_LVM_TARGET_BASE, DEFAULT_DEV_TARGET, DEFAULT_SCSI_TARGET,
        DEFAULT_MPATH_TARGET, List.contains]
  · intro ht
    simp [default_target_path, supports_property, users, optIn, ht,
      DEFAULT_LVM_TARGET_BASE, List.contains]
  · intro ht
    simp [default_target_path, supports_property, users, optIn, ht,
      DEFAULT_DEV_TARGET, List.contains]
  · rintro (ht | ht) <;>
      simp [default_target_path, supports_property, users, optIn, ht,
        DEFAULT_SCSI_TARGET, List.contains]
  · intro ht
    simp [default_target_path, supports_property, users, optIn, ht,
      DEFAULT_MPATH_TARGET, List.contains]
  · intro t ht h1 h2 h3 h4 h5 h6 h7 h8
    simp [default_target_path, supports_property, users, optIn, ht,
      List.contains, h1, h2, h3, h4, h5, h6, h7, h8]

/-- The final `raise` in `default_target_path` is unreachable: the
function always returns. -/
theorem default_target_path_isOk (p : StoragePool) (ha : String → Bool) (c : Conn) :
    (p.default_target_path ha c).isOk = true := by
  by_cases hs : p.supports_property ha "target_path"
  · have hmem : optIn p.type
        ["dir", "fs", "netfs", "logical", "disk", "iscsi", "scsi", "mpath"] = true := by
      simpa [supports_property, users] using hs
    cases hpt : p.type with
    | none => simp [optIn, hpt] at hmem
    | some t =>
      rw [hpt] at hmem
      simp [optIn, List.contains] at hmem
      rcases hmem with h | h | h | h | h | h | h | h <;> subst h <;>
        simp [default_target_path, hs, hpt, Except.isOk, Except.toBool]
  · simp [default_target_path, hs, Except.isOk, Except.toBool]

/-- `default_target_path` always returns a value. -/
theorem default_target_path_exists (p : StoragePool) (ha : String → Bool) (c : Conn) :
    ∃ o, p.default_target_path ha c = .ok o := by
  have h := default_target_path_isOk p ha c
  cases hdtp : p.default_target_path ha c with
  | ok o => exact ⟨o, rfl⟩
  | error e => rw [hdtp] at h; simp [Except.isOk, Except.toBool] at h

/-- Unfolding of `apply_defaults` given the (always-`ok`) result of
`default_target_path`. -/
theorem apply_defaults_eq (p : StoragePool) (ha : String → Bool) (c : Conn)
    (o : Option String) (ho : p.default_target_path ha c = .ok o) :
    p.apply_defaults ha c = .ok (
      let p0 := if ¬ strTruthy p.target_path then
        { p with target_path := o, target_path_explicit := true } else p
      let p1 := if ¬ strTruthy p0.source_name then
        { p0 with source_name := p0.default_source_name ha } else p0
      if ¬ strTruthy p1.format ∧ p1.supports_property ha "format" then
        { p1 with format := some "auto" } else p1) := by
  by_cases h1 : strTruthy p.target_path <;>
    simp [apply_defaults, ho, h1, bind, Except.bind, pure, Except.pure]

/-- `apply_defaults` always succeeds, preserves the pool type, and sets the
format field to "auto" exactly when it was unset and the type supports a
format. -/
theorem apply_defaults_ok (p : StoragePool) (ha : String → Bool) (c : Conn) :
    ∃ p1, p.apply_defaults ha c = .ok p1 ∧
      p1.type = p.type ∧ p1.hosts = p.hosts ∧
      p1.source_dir = p.source_dir ∧ p1.source_adapter = p.source_adapter ∧
      p1.source_device = p.source_device ∧
      p1.format = (if strTruthy p.format = false ∧
        p.supports_property ha "format" = true then some "auto" else p.format) := by
  obtain ⟨o, ho⟩ := default_target_path_exists p ha c
  rw [apply_defaults_eq p ha c o ho]
  refine ⟨_, rfl, ?_⟩
  by_cases h1 : strTruthy p.target_path <;>
    by_cases h2 : strTruthy p.source_name <;>
    by_cases h3 : strTruthy p.format <;>
    by_cases h4 : optIn p.type ["fs", "netfs", "disk"] = true <;>
    simp [h1, h2, h3, h4, supports_property, users]

/-- Witness for C1's amended theorem: a concrete disk pool. -/
theorem default_target_path_spec_witness :
    ({ type := some "disk" } : StoragePool).default_target_path (fun _ => true)
      { is_session_uri := false, home := "/root", poolNames := [],
        genericNameErr := fun _ => none, is_really_test := false,
        conn_qcow2_lazy_refcounts := false, pool_metadata_prealloc := false } =
      .ok (some "/dev") :=
  (default_target_path_spec { type := some "disk" } (fun _ => true) _).2.2.1 rfl

/-- `supports_property` depends only on the pool type. -/
theorem supports_property_congr (p q : StoragePool) (h : q.type = p.type)
    (ha : String → Bool) (x : String) :
    q.supports_property ha x = p.supports_property ha x := by
  simp [supports_property, h]

/-- C3: after a successful `validate()`, a disk-type pool whose format was
"auto" (explicitly set or defaulted) has its format cleared to empty, and
any other type that supports the format property and had no format set ends
with format "auto". -/
theorem validate_format_spec (p : StoragePool) (ha : String → Bool) (c : Conn)
    (hs : (p.validate ha c).2 = none) :
    (p.type = some "disk" → (p.format = some "auto" ∨ strTruthy p.format = false) →
      (p.validate ha c).1.format = none) ∧
    (∀ t, p.type = some t → t ≠ "disk" → strTruthy p.format = false →
      p.supports_property ha "format" = true →
      (p.validate ha c).1.format = some "auto") := by
  cases hvn : validate_name c p.name with
  | some m => simp [validate, hvn] at hs
  | none =>
    obtain ⟨p1, hap, ht1, hh1, hd1, ha1, hv1, hf1⟩ := apply_defaults_ok p ha c
    simp only [validate, hvn, hap] at hs ⊢
    by_cases hH : p1.supports_property ha "hosts" ∧ p1.hosts = []
    · simp [hH] at hs
    · by_cases hS : p1.supports_property ha "source_path" ∧
          p1.type ≠ some "logical" ∧ ¬ strTruthy p1.source_path
      · simp [hH, hS] at hs
      · constructor
        · intro hdisk hauto
          have hp1fmt : p1.format = some "auto" := by
            rcases hauto with h | h
            · by_cases hcnd : strTruthy p.format = false ∧
                  p.supports_property ha "format" = true
              · rw [hf1, if_pos hcnd]
              · rw [hf1, if_neg hcnd, h]
            · have hsup : p.supports_property ha "format" = true := by
                simp [supports_property, users, optIn, hdisk, List.contains]
              rw [hf1, if_pos ⟨h, hsup⟩]
          have hdiskC : p1.type = some "disk" ∧ p1.format = some "auto" :=
            ⟨ht1.trans hdisk, hp1fmt⟩
          rw [if_neg hH, if_neg hS, if_pos hdiskC]
        · intro t htp hne hfu hsup
          have hp1fmt : p1.format = some "auto" := by
            rw [hf1, if_pos ⟨hfu, hsup⟩]
          have hnd : ¬(p1.type = some "disk" ∧ p1.format = some "auto") := by
            rintro ⟨hd, _⟩
            rw [ht1, htp] at hd
            exact hne (by simpa using hd)
          rw [if_neg hH, if_neg hS, if_neg hnd]
          exact hp1fmt

/-- Witness for C3: a concrete fs-type pool with a source device and no
format validates successfully and ends with format "auto". -/
theorem validate_format_spec_witness :
    (({ type := some "fs", name := some "pool1",
        source_device := some "/dev/sdb1" } : StoragePool).validate (fun _ => false)
      { is_session_uri := false, home := "/root", poolNames := [],
        genericNameErr := fun _ => none, is_really_test := false,
        conn_qcow2_lazy_refcounts := false,
        pool_metadata_prealloc := false }).1.format = some "auto" :=
  (validate_format_spec
    { type := some "fs", name := some "pool1", source_device := some "/dev/sdb1" }
    (fun _ => false)
    { is_session_uri := false, home := "/root", poolNames := [],
      genericNameErr := fun _ => none, is_really_test := false,
      conn_qcow2_lazy_refcounts := false, pool_metadata_prealloc := false }
    (by decide)).2 "fs" rfl (by decide) (by decide) (by decide)

/-- C10: `validate()` is not atomic on failure: when it raises because a
required field is missing (no host on a netfs pool, which supports hosts;
or no source path on an fs pool, non-logical and supporting source_path),
the defaulting assignments performed beforehand — target_path, source_name
and format — remain applied on the returned pool state. -/
theorem validate_not_atomic_spec (p : StoragePool) (ha : String → Bool) (c : Conn)
    (hn : c.genericNameErr p.name = none)
    (hfree : c.poolNames.contains (p.name.getD "") = false)
    (htp : strTruthy p.target_path = false)
    (hsn : strTruthy p.source_name = false)
    (hfmt : strTruthy p.format = false) :
    (p.type = some "netfs" → p.hosts = [] →
      p.validate ha c =
        ({ p with
            target_path :=
              some (pathJoin (preferred_default_pool_path c) (p.name.getD "")),
            target_path_explicit := true,
            source_name := none,
            format := some "auto" },
          some "Hostname is required")) ∧
    (p.type = some "fs" → strTruthy p.source_device = false →
      p.validate ha c =
        ({ p with
            target_path :=
              some (pathJoin (preferred_default_pool_path c) (p.name.getD "")),
            target_path_explicit := true,
            source_name := none,
            format := some "auto" },
          some "Source path is required")) := by
  have hvn : validate_name c p.name = none := by
    simp [validate_name, hn]
    simpa using hfree
  constructor
  · intro htype hhosts
    have ho : p.default_target_path ha c =
        .ok (some (pathJoin (preferred_default_pool_path c) (p.name.getD ""))) := by
      simp [default_target_path, supports_property, users, optIn, htype, List.contains]
    simp only [validate, hvn, apply_defaults_eq p ha c _ ho]
    simp [htp, hsn, hfmt, htype, hhosts, default_source_name,
      supports_property, users, optIn, List.contains]
  · intro htype hsrc
    have ho : p.default_target_path ha c =
        .ok (some (pathJoin (preferred_default_pool_path c) (p.name.getD ""))) := by
      simp [default_target_path, supports_property, users, optIn, htype, List.contains]
    simp only [validate, hvn, apply_defaults_eq p ha c _ ho]
    simp [htp, hsn, hfmt, htype, hsrc, default_source_name, source_path,
      supports_property, users, optIn, List.contains]

/-- Witness for C10: a concrete netfs pool with no hosts — `validate`
raises "Hostname is required" yet the returned state keeps the defaulted
target_path and format. -/
theorem validate_not_atomic_spec_witness :
    ({ type := some "netfs", name := some "share" } : StoragePool).validate
      (fun _ => false)
      { is_session_uri := false, home := "/root", poolNames := [],
        genericNameErr := fun _ => none, is_really_test := false,
        conn_qcow2_lazy_refcounts := false, pool_metadata_prealloc := false } =
      ({ type := some "netfs", name := some "share",
         target_path := some "/var/lib/libvirt/images/share",
         target_path_explicit := true, format := some "auto" },
        some "Hostname is required") := by
  have h := (validate_not_atomic_spec
    { type := some "netfs", name := some "share" } (fun _ => false)
    { is_session_uri := false, home := "/root", poolNames := [],
      genericNameErr := fun _ => none, is_really_test := false,
      conn_qcow2_lazy_refcounts := false, pool_metadata_prealloc := false }
    rfl rfl rfl rfl rfl).1 rfl rfl
  simpa using h

/-- C7: when the source-discovery call raises, `pool_list_from_sources`
returns an empty list if the connection classifies the error as "not
supported", and re-raises the error unchanged otherwise. -/
theorem pool_list_from_sources_error_spec (c : EnumConn) (pool_type : String)
    (host : Option String) (e : String)
    (he : c.findStoragePoolSources pool_type (enum_source_xml host) = .error e) :
    (c.is_error_nosupport e = true →
      pool_list_from_sources c pool_type host = .ok []) ∧
    (c.is_error_nosupport e = false →
      pool_list_from_sources c pool_type host = .error e) := by
  constructor <;> intro h <;> simp [pool_list_from_sources, he, h]

/-- Witness for C7: a connection whose discovery call raises a
"not supported" error yields `ok []`. -/
theorem pool_list_from_sources_error_spec_witness :
    pool_list_from_sources
      { findStoragePoolSources := fun _ _ => .error "unsupported by driver",
        is_error_nosupport := fun _ => true,
        parse_sources := fun _ => [] } "iscsi" (some "example.com") = .ok [] :=
  (pool_list_from_sources_error_spec
    { findStoragePoolSources := fun _ _ => .error "unsupported by driver",
      is_error_nosupport := fun _ => true,
      parse_sources := fun _ => [] } "iscsi" (some "example.com")
    "unsupported by driver" rfl).1 rfl

/-- C6: after a successful define, a failure at the build, start, or
autostart step skips the remaining steps in that order, always attempts an
undefine of the just-defined pool (whatever the undefine outcome — its
result is never consulted, so an undefine failure cannot replace the
original error), does not register the pool with the connection cache, and
raises an error naming the failed stage; on full success nothing is
undefined, the pool is cached, and the handle is returned. -/
theorem install_spec (p : StoragePool) (ops : PoolOps)
    (create build autostart : Bool)
    (hpre1 : ¬(p.type = some "logical" ∧ build = true ∧ ¬ strTruthy p.source_path))
    (hpre2 : ¬(p.type = some "disk" ∧ build = true ∧ p.format = some "auto"))
    (hdef : ops.defineResult = .ok ()) :
    (∀ e, build = true → ops.buildResult = .error e →
      p.install ops create build autostart =
        ⟨true, false, false, true, false,
          .error ("Could not build storage pool: " ++ e)⟩) ∧
    (∀ e, create = true → (build = true → ops.buildResult = .ok ()) →
      ops.createResult = .error e →
      p.install ops create build autostart =
        ⟨build, true, false, true, false,
          .error ("Could not start storage pool: " ++ e)⟩) ∧
    (∀ e, autostart = true → (build = true → ops.buildResult = .ok ()) →
      (create = true → ops.createResult = .ok ()) →
      ops.autostartResult = .error e →
      p.install ops create build autostart =
        ⟨build, create, true, true, false,
          .error ("Could not set pool autostart flag: " ++ e)⟩) ∧
    ((build = true → ops.buildResult = .ok ()) →
      (create = true → ops.createResult = .ok ()) →
      (autostart = true → ops.autostartResult = .ok ()) →
      p.install ops create build autostart =
        ⟨build, create, autostart, false, true, .ok ()⟩) := by
  have key : build = true →
      (¬(p.type = some "logical" ∧ strTruthy p.source_path = false)) ∧
      (¬(p.type = some "disk" ∧ p.format = some "auto")) := by
    intro hb
    subst hb
    exact ⟨fun ⟨hl, hs⟩ => hpre1 ⟨hl, rfl, by simp [hs]⟩,
      fun ⟨hd, hf⟩ => hpre2 ⟨hd, rfl, hf⟩⟩
  refine ⟨?_, ?_, ?_, ?_⟩
  · intro e hb hberr
    subst hb
    obtain ⟨h1, h2⟩ := key rfl
    simp [install, hdef, hberr, h1, h2]
  · intro e hc hbok hcerr
    subst hc
    cases hb : build with
    | false => simp [install, hdef, hb, hcerr]
    | true =>
      obtain ⟨h1, h2⟩ := key hb
      simp [install, hdef, hb, hbok hb, hcerr, h1, h2]
  · intro e ha hbok hcok haerr
    subst ha
    cases hb : build with
    | false =>
      cases hc : create with
      | false => simp [install, hdef, hb, hc, haerr]
      | true => simp [install, hdef, hb, hc, hcok hc, haerr]
    | true =>
      obtain ⟨h1, h2⟩ := key hb
      cases hc : create with
      | false => simp [install, hdef, hb, hc, hbok hb, haerr, h1, h2]
      | true => simp [install, hdef, hb, hc, hbok hb, hcok hc, haerr, h1, h2]
  · intro hbok hcok haok
    cases hb : build with
    | false =>
      cases hc : create with
      | false =>
        cases hauto : autostart with
        | false => simp [install, hdef, hb, hc, hauto]
        | true => simp [install, hdef, hb, hc, hauto, haok hauto]
      | true =>
        cases hauto : autostart with
        | false => simp [install, hdef, hb, hc, hauto, hcok hc]
        | true => simp [install, hdef, hb, hc, hauto, hcok hc, haok hauto]
    | true =>
      obtain ⟨h1, h2⟩ := key hb
      cases hc : create with
      | false =>
        cases hauto : autostart with
        | false => simp [install, hdef, hb, hc, hauto, hbok hb, h1, h2]
        | true => simp [install, hdef, hb, hc, hauto, hbok hb, haok hauto, h1, h2]
      | true =>
        cases hauto : autostart with
        | false => simp [install, hdef, hb, hc, hauto, hbok hb, hcok hc, h1, h2]
        | true =>
          simp [install, hdef, hb, hc, hauto, hbok hb, hcok hc, haok hauto, h1, h2]

/-- Witness for C6: a build failure on a concrete dir pool skips start and
autostart, attempts undefine (whose own failure is swallowed), and raises
the build-stage error. -/
theorem install_spec_witness :
    ({ type := some "dir", name := some "default" } : StoragePool).install
      { defineResult := .ok (), buildResult := .error "disk full",
        createResult := .ok (), autostartResult := .ok (),
        undefineResult := .error "undefine also failed" }
      true true true =
      ⟨true, false, false, true, false,
        .error ("Could not build storage pool: " ++ "disk full")⟩ :=
  (install_spec { type := some "dir", name := some "default" }
    { defineResult := .ok (), buildResult := .error "disk full",
      createResult := .ok (), autostartResult := .ok (),
      undefineResult := .error "undefine also failed" }
    true true true (by simp) (by simp) rfl).1 "disk full" rfl rfl

/-- C4 counterexample: the claim says `default_source_name` returns the
pool's name for a netfs-type pool; on a concrete netfs pool named
"mypool" the code returns `None`, because netfs is not in the
`source_name` capability table, so the guard clause wins and the netfs
branch is unreachable. -/
theorem default_source_name_netfs_returns_none :
    ({ type := some "netfs", name := some "mypool" } : StoragePool).default_source_name
      (fun _ => true) = none := by
  rfl

/-- C4 (amended): `default_source_name` returns `None` for every type not
in the `source_name` capability table — including netfs, whose dead branch
would have returned the pool name; "rbd" for rbd; "gv0" for gluster; and
for the remaining supported types (logical, sheepdog, zfs), when a
target_path has been explicitly set and begins with the LVM base prefix
"/dev/", the first path segment after that prefix. -/
theorem default_source_name_spec (p : StoragePool) (ha : String → Bool) :
    (∀ t, p.type = some t →
      t ≠ "logical" → t ≠ "gluster" → t ≠ "rbd" → t ≠ "sheepdog" → t ≠ "zfs" →
      p.default_source_name ha = none) ∧
    (p.type = some "rbd" → p.default_source_name ha = some "rbd") ∧
    (p.type = some "gluster" → p.default_source_name ha = some "gv0") ∧
    (∀ t, p.type = some t → (t = "logical" ∨ t = "sheepdog" ∨ t = "zfs") →
      p.target_path_explicit = true → strTruthy p.target_path = true →
      strStartsWith (p.target_path.getD "") "/dev/" = true →
      p.default_source_name ha =
        some (strTakeWhile (· ≠ '/') (strDrop (p.target_path.getD "") 5))) := by
  refine ⟨?_, ?_, ?_, ?_⟩
  · intro t ht h1 h2 h3 h4 h5
    simp [default_source_name, supports_property, users, optIn, ht,
      List.contains, h1, h2, h3, h4, h5]
  · intro ht
    simp [default_source_name, supports_property, users, optIn, ht, List.contains]
  · intro ht
    simp [default_source_name, supports_property, users, optIn, ht, List.contains]
  · intro t ht hcase hexp htr hpre
    have h5 : ("/dev/" : String).length = 5 := rfl
    rcases hcase with h | h | h <;> subst h <;>
      simp [default_source_name, supports_property, users, optIn, ht,
        List.contains, hexp, htr, hpre, DEFAULT_LVM_TARGET_BASE, h5]

/-- Witness for C4's amended theorem: a concrete logical pool with an
explicitly set target path under the LVM base. -/
theorem default_source_name_spec_witness :
    ({ type := some "logical", name := some "pool",
       target_path := some "/dev/testvg", target_path_explicit := true } :
      StoragePool).default_source_name (fun _ => true) = some "testvg" := by
  have h := (default_source_name_spec
    { type := some "logical", name := some "pool",
      target_path := some "/dev/testvg", target_path_explicit := true }
    (fun _ => true)).2.2.2 "logical" rfl (Or.inl rfl) rfl (by decide) (by decide)
  simpa using h

end StoragePool

namespace StorageVolume

/-- C5: `is_size_conflict` returns `(True, msg)` exactly when the requested
allocation strictly exceeds the pool's available space, with both amounts in
the message in whole megabytes by integer division; `(False, msg)` with a
non-empty message when allocation does not exceed available but capacity
does; `(False, "")` otherwise, and also whenever no pool is associated. -/
theorem is_size_conflict_spec (v : StorageVolume) :
    (v.pool = none → v.is_size_conflict = (false, "")) ∧
    (∀ ph, v.pool = some ph →
      (v.is_size_conflict.1 = true ↔ v.allocation > ph.avail) ∧
      (v.allocation > ph.avail →
        v.is_size_conflict = (true,
          "There is not enough free space on the storage pool to create the volume. (" ++
          toString (v.allocation / (1024 * 1024)) ++ " M requested allocation > " ++
          toString (ph.avail / (1024 * 1024)) ++ " M available)")) ∧
      (v.allocation ≤ ph.avail → v.capacity > ph.avail →
        v.is_size_conflict.1 = false ∧ v.is_size_conflict.2 ≠ "" ∧
        v.is_size_conflict.2 =
          "The requested volume capacity will exceed the available pool space when the volume is fully allocated. (" ++
          toString (v.capacity / (1024 * 1024)) ++ " M requested capacity > " ++
          toString (ph.avail / (1024 * 1024)) ++ " M available)") ∧
      (v.allocation ≤ ph.avail → v.capacity ≤ ph.avail →
        v.is_size_conflict = (false, ""))) := by
  refine ⟨fun hp => by simp [is_size_conflict, hp], fun ph hp => ⟨?_, ?_, ?_, ?_⟩⟩
  · by_cases hgt : v.allocation > ph.avail
    · simp [is_size_conflict, hp, hgt]
    · by_cases hc : v.capacity > ph.avail <;>
        simp [is_size_conflict, hp, hgt, hc]
  · intro hgt
    simp [is_size_conflict, hp, hgt]
  · intro hle hgt
    have hnot : ¬ v.allocation > ph.avail := by omega
    refine ⟨by simp [is_size_conflict, hp, hnot, hgt], ?_, by simp [is_size_conflict, hp, hnot, hgt]⟩
    simp only [is_size_conflict, hp]
    rw [if_neg (by simpa using hnot), if_pos (by simpa using hgt)]
    intro h
    have h2 := congrArg String.data h
    simp at h2
  · intro h1 h2
    have hnot1 : ¬ v.allocation > ph.avail := by omega
    have hnot2 : ¬ v.capacity > ph.avail := by omega
    simp [is_size_conflict, hp, hnot1, hnot2]

/-- Witness for C5: a concrete volume requesting 3 MiB allocation from a
pool with 2 MiB available. -/
theorem is_size_conflict_spec_witness :
    ({ name := some "vol", capacity := 3145728, allocation := 3145728,
       pool := some { state := 2, info_capacity := 10485760,
                      info_allocation := 8388608, avail := 2097152,
                      volNames := [] } } : StorageVolume).is_size_conflict =
      (true,
        "There is not enough free space on the storage pool to create the volume. (3 M requested allocation > 2 M available)") := by
  have h := ((is_size_conflict_spec
    { name := some "vol", capacity := 3145728, allocation := 3145728,
      pool := some { state := 2, info_capacity := 10485760,
                     info_allocation := 8388608, avail := 2097152,
                     volNames := [] } }).2
    { state := 2, info_capacity := 10485760, info_allocation := 8388608,
      avail := 2097152, volNames := [] } rfl).2.1 (by decide)
  simpa using h

/-- The defaulting steps of `StorageVolume.validate` do not touch the
allocation, capacity, pool handle, or pool XML snapshot. -/
theorem validate_set_defaults_fields (v : StorageVolume) (c : Conn) :
    (v.validate_set_defaults c).allocation = v.allocation ∧
    (v.validate_set_defaults c).capacity = v.capacity ∧
    (v.validate_set_defaults c).pool = v.pool ∧
    (v.validate_set_defaults c).pool_xml = v.pool_xml := by
  unfold validate_set_defaults
  split <;> simp [apply_ite]

/-- C8: `validate()` on a volume whose pool is logical-type, with
allocation ≠ capacity, forces allocation to capacity, emits exactly the
non-fatal sparseness warning, and raises no exception (given that the name
check passes and capacity does not exceed the pool's available space). -/
theorem volume_validate_logical_spec (v : StorageVolume) (c : Conn)
    (hname : StorageVolume.validate_name c v.pool v.name = none)
    (hlog : v.pool_xml.type = some "logical")
    (hneq : v.allocation ≠ v.capacity)
    (havail : ∀ ph, v.pool = some ph → v.capacity ≤ ph.avail) :
    (v.validate c).1.allocation = v.capacity ∧
    (v.validate c).1.capacity = v.capacity ∧
    (v.validate c).2.1 =
      ["Sparse logical volumes are not supported, setting allocation equal to capacity"] ∧
    (v.validate c).2.2 = none := by
  cases hp : v.pool with
  | none =>
    rcases hg : c.genericNameErr v.name with _ | m <;>
      simp [validate_name, hp, hg] at hname
  | some ph =>
    have hcap : ¬ v.capacity > ph.avail := Nat.not_lt.mpr (havail ph hp)
    have hceq : (ph.avail < v.capacity) = False := eq_false hcap
    obtain ⟨hfa, hfc, hfp, hfx⟩ := validate_set_defaults_fields v c
    simp only [validate, hname]
    set w := v.validate_set_defaults c with hw
    have hcondW : w.pool_xml.type = some "logical" ∧ ¬ w.allocation = w.capacity := by
      rw [hfx, hfa, hfc]
      exact ⟨hlog, hneq⟩
    rw [if_pos hcondW]
    simp [is_size_conflict, hfa, hfc, hfp, hp, hceq]

/-- Witness for C8: a concrete 20 GiB/5 GiB volume on a logical pool with
room for it; `validate` forces allocation to 20 GiB with the warning and no
error. -/
theorem volume_validate_logical_spec_witness :
    ((({ name := some "lv1", capacity := 21474836480, allocation := 5368709120,
         pool := some { state := 2, info_capacity := 107374182400,
                        info_allocation := 0, avail := 107374182400,
                        volNames := [] },
         pool_xml := { type := some "logical" } } : StorageVolume).validate
      { is_session_uri := false, home := "/root", poolNames := [],
        genericNameErr := fun _ => none, is_really_test := false,
        conn_qcow2_lazy_refcounts := false,
        pool_metadata_prealloc := false }).1.allocation = 21474836480 ∧
      (({ name := some "lv1", capacity := 21474836480, allocation := 5368709120,
          pool := some { state := 2, info_capacity := 107374182400,
                         info_allocation := 0, avail := 107374182400,
                         volNames := [] },
          pool_xml := { type := some "logical" } } : StorageVolume).validate
        { is_session_uri := false, home := "/root", poolNames := [],
          genericNameErr := fun _ => none, is_really_test := false,
          conn_qcow2_lazy_refcounts := false,
          pool_metadata_prealloc := false }).2.2 = none) := by
  have h := volume_validate_logical_spec
    { name := some "lv1", capacity := 21474836480, allocation := 5368709120,
      pool := some { state := 2, info_capacity := 107374182400,
                     info_allocation := 0, avail := 107374182400,
                     volNames := [] },
      pool_xml := { type := some "logical" } }
    { is_session_uri := false, home := "/root", poolNames := [],
      genericNameErr := fun _ => none, is_really_test := false,
      conn_qcow2_lazy_refcounts := false, pool_metadata_prealloc := false }
    (by decide) (by decide) (by decide)
    (fun ph hph => by
      cases hph
      decide)
  exact ⟨h.1, h.2.2.2⟩

/-- C9: the prealloc-metadata flag is in the create flags exactly when the
volume's format is qcow2, no backing store is set, the connection is not a
test connection, and the pool-metadata-preallocation capability probe
succeeds; under those same conditions the prealloc flag is in the clone
flags exactly when capacity equals allocation (the reflink flag, when
added, is a different bit). -/
theorem install_flags_spec (v : StorageVolume) (c : Conn) :
    ((v.install_flags c).2 &&& VIR_STORAGE_VOL_CREATE_PREALLOC_METADATA =
        VIR_STORAGE_VOL_CREATE_PREALLOC_METADATA ↔
      (v.format = some "qcow2" ∧ strTruthy v.backing_store = false ∧
        c.is_really_test = false ∧ c.pool_metadata_prealloc = true)) ∧
    ((v.install_flags c).1 &&& VIR_STORAGE_VOL_CREATE_PREALLOC_METADATA =
        VIR_STORAGE_VOL_CREATE_PREALLOC_METADATA ↔
      (v.format = some "qcow2" ∧ strTruthy v.backing_store = false ∧
        c.is_really_test = false ∧ c.pool_metadata_prealloc = true ∧
        v.capacity = v.allocation)) := by
  by_cases hcond : v.format = some "qcow2" ∧ ¬ strTruthy v.backing_store ∧
      ¬ c.is_really_test ∧ c.pool_metadata_prealloc
  · obtain ⟨h1, h2, h3, h4⟩ := hcond
    by_cases hcap : v.capacity = v.allocation <;>
      by_cases href : v.reflink <;>
        simp [install_flags, h1, h2, h3, h4, hcap, href,
          VIR_STORAGE_VOL_CREATE_PREALLOC_METADATA, VIR_STORAGE_VOL_CREATE_REFLINK]
  · have hRHS1 : ¬(v.format = some "qcow2" ∧ strTruthy v.backing_store = false ∧
        c.is_really_test = false ∧ c.pool_metadata_prealloc = true) := by
      rintro ⟨h1, h2, h3, h4⟩
      exact hcond ⟨h1, by simp [h2], by simp [h3], h4⟩
    have hinst : v.install_flags c =
        ((if v.reflink then 0 ||| VIR_STORAGE_VOL_CREATE_REFLINK else 0), 0) := by
      simp only [install_flags]
      simp [hRHS1]
    have hRHS2 : ¬(v.format = some "qcow2" ∧ strTruthy v.backing_store = false ∧
        c.is_really_test = false ∧ c.pool_metadata_prealloc = true ∧
        v.capacity = v.allocation) := by
      rintro ⟨h1, h2, h3, h4, _⟩
      exact hcond ⟨h1, by simp [h2], by simp [h3], h4⟩
    rw [hinst]
    by_cases href : v.reflink <;>
      simp [href, hRHS1, hRHS2, VIR_STORAGE_VOL_CREATE_PREALLOC_METADATA,
        VIR_STORAGE_VOL_CREATE_REFLINK]

end StorageVolume

end Virtinst
